import Mathlib

/-!
Verification of the blockchain sync engine in `backend/app/subscriber.py`
(class `ChainSubscriber`), checked against its natural-language specification.

The embedding models the observable behaviour of the subscriber at the level
of decoded bytes: the indexer delivers application arguments and log entries
as base64 strings, and the code immediately base64-decodes them inside
`try/except` blocks.  We embed each such blob as an `Option (List Nat)`:
`some bs` is a blob whose base64 decoding yields the byte sequence `bs`
(each element a byte value < 256), and `none` is a blob whose base64
decoding raises (the `except` branch of the source).  UTF-8 decoding of the
seat string, which can also raise, is modelled by an explicit UTF-8 validity
checker over the raw bytes; the seat is carried as its UTF-8 byte sequence.

The database session is modelled as an explicit `Store` value holding the
ticket and transfer rows touched by the subscriber, with the autoincrement
primary key made explicit.
-/

/-- An application argument or log entry after base64 decoding:
`some bs` when `base64.b64decode` succeeds with bytes `bs`,
`none` when it raises (caught by the surrounding `except`). -/
abbrev Blob := Option (List Nat)

/-- An inner transaction, with the fields `_handle_mint` reads:
`"tx-type"`, `"created-asset-index"`, and
`"asset-config-transaction"."asset-id"`.  A missing key is `none`. -/
structure InnerTxn where
  txType : String
  createdAssetIndex : Option Nat
  acfgAssetId : Option Nat
  deriving Repr, DecidableEq

/-- A raw transaction record as returned by the indexer, restricted to the
fields `ChainSubscriber` reads.  `appId` is
`"application-transaction"."application-id"`; the subscriber itself never
reads it (the indexer query is already filtered by application id), but the
classifier claims quantify over it. -/
structure RawTxn where
  txType : String
  txnId : String
  sender : String
  confirmedRound : Nat
  appId : Nat
  appArgs : List Blob
  logs : List Blob
  innerTxns : List InnerTxn
  deriving Repr, DecidableEq

/-- `TicketStatus` enum from `models.py` (members used by the subscriber
and its claims). -/
inductive TicketStatus where
  | minted
  | sold
  | transferred
  | used
  | cancelled
  deriving Repr, DecidableEq

/-- `TransferType` enum from `models.py`. -/
inductive TransferType where
  | primary_sale
  | resale
  | gift
  deriving Repr, DecidableEq

/-- `TransferStatus` enum from `models.py`. -/
inductive TransferStatus where
  | pending
  | confirmed
  | failed
  deriving Repr, DecidableEq

/-- A `tickets` row, restricted to the columns the subscriber writes or
reads.  `seat_number` is the UTF-8 byte sequence of the seat string. -/
structure Ticket where
  id : Nat
  event_id : Nat
  seat_number : List Nat
  asa_id : Nat
  ticket_price : Nat
  status : TicketStatus
  current_owner_wallet : String
  txn_id : String
  deriving Repr, DecidableEq

/-- A `transfers` row, restricted to the columns the subscriber writes. -/
structure Transfer where
  ticket_id : Nat
  from_wallet : String
  to_wallet : String
  price : Nat
  txn_id : String
  transfer_type : TransferType
  status : TransferStatus
  deriving Repr, DecidableEq

/-- The database state the subscriber touches: the ticket rows, the
transfer rows (append-only), and the next autoincrement ticket id. -/
structure Store where
  tickets : List Ticket
  transfers : List Transfer
  nextTicketId : Nat
  deriving Repr, DecidableEq

/-- `MINT_SELECTOR = "3311de72"` as bytes: comparing the hex rendering of a
byte sequence with this constant is equivalent to comparing the bytes. -/
def MINT_SELECTOR : List Nat := [0x33, 0x11, 0xde, 0x72]

/-- `TRANSFER_SELECTOR = "e5ff5d13"` as bytes. -/
def TRANSFER_SELECTOR : List Nat := [0xe5, 0xff, 0x5d, 0x13]

/-- The fixed ARC-4 return marker `b"\x15\x1f\x7c\x75"`. -/
def RETURN_MARKER : List Nat := [0x15, 0x1f, 0x7c, 0x75]

/-- `int.from_bytes(bs, "big")`: big-endian interpretation of a byte
sequence; the empty sequence yields 0. -/
def beBytesToNat : List Nat → Nat
  | [] => 0
  | b :: rest => b * 256 ^ rest.length + beBytesToNat rest

/-- Whether `b` is a UTF-8 continuation byte (`0x80..0xBF`). -/
def isCont (b : Nat) : Bool := 0x80 ≤ b && b ≤ 0xBF

/-- UTF-8 validity of a byte sequence, as checked by Python's
`bytes.decode("utf-8")`: rejects overlong encodings, surrogates
(`0xED 0xA0..` and up) and code points above `0x10FFFF`. -/
def validUtf8 : List Nat → Bool
  | [] => true
  | b :: rest =>
    if b ≤ 0x7F then validUtf8 rest
    else if 0xC2 ≤ b && b ≤ 0xDF then
      match rest with
      | c1 :: r => isCont c1 && validUtf8 r
      | [] => false
    else if b = 0xE0 then
      match rest with
      | c1 :: c2 :: r => (0xA0 ≤ c1 && c1 ≤ 0xBF) && isCont c2 && validUtf8 r
      | _ => false
    else if (0xE1 ≤ b && b ≤ 0xEC) || b = 0xEE || b = 0xEF then
      match rest with
      | c1 :: c2 :: r => isCont c1 && isCont c2 && validUtf8 r
      | _ => false
    else if b = 0xED then
      match rest with
      | c1 :: c2 :: r => (0x80 ≤ c1 && c1 ≤ 0x9F) && isCont c2 && validUtf8 r
      | _ => false
    else if b = 0xF0 then
      match rest with
      | c1 :: c2 :: c3 :: r =>
          (0x90 ≤ c1 && c1 ≤ 0xBF) && isCont c2 && isCont c3 && validUtf8 r
      | _ => false
    else if 0xF1 ≤ b && b ≤ 0xF3 then
      match rest with
      | c1 :: c2 :: c3 :: r => isCont c1 && isCont c2 && isCont c3 && validUtf8 r
      | _ => false
    else if b = 0xF4 then
      match rest with
      | c1 :: c2 :: c3 :: r =>
          (0x80 ≤ c1 && c1 ≤ 0x8F) && isCont c2 && isCont c3 && validUtf8 r
      | _ => false
    else false

/-- The UTF-8 byte sequence of the fallback seat string `"UNKNOWN"`. -/
def UNKNOWN_BYTES : List Nat := [85, 78, 75, 78, 79, 87, 78]

/-- Python's truthiness-based `x or y` on `int | None` values, as in
`inner.get("created-asset-index") or
 inner.get("asset-config-transaction", {}).get("asset-id")`:
the left operand wins unless it is `None` or `0`. -/
def pyOr (x y : Option Nat) : Option Nat :=
  match x with
  | some n => if n = 0 then y else some n
  | none => y

/-- The inner-transaction scan of `_handle_mint` (lines 142–147): walk the
inner transactions, and at the FIRST one with `tx-type == "acfg"` take
`created-asset-index or asset-config-transaction.asset-id` and `break`
(later `acfg` inner transactions are not consulted). -/
def extractInnerAsaId : List InnerTxn → Option Nat
  | [] => none
  | inner :: rest =>
      if inner.txType = "acfg" then pyOr inner.createdAssetIndex inner.acfgAssetId
      else extractInnerAsaId rest

/-- The marker check and slice of `_handle_mint` (lines 156–157):
`last_log[:4] == b"\x15\x1f\x7c\x75"` then
`int.from_bytes(last_log[4:12], "big")`.  Python slicing never fails, so a
log of 4–11 bytes with a valid marker still yields a value, from the bytes
that are present. -/
def decodeReturnLog (log : List Nat) : Option Nat :=
  if log.take 4 = RETURN_MARKER then some (beBytesToNat ((log.drop 4).take 8))
  else none

/-- The log fallback of `_handle_mint` (lines 150–159): only runs when the
log list is non-empty (`if logs:`), base64-decodes `logs[-1]` inside
`try/except` (failure leaves `asa_id` as `None`), then applies the marker
check and slice. -/
def extractLogAsaId (logs : List Blob) : Option Nat :=
  match logs.getLast? with
  | none => none
  | some none => none
  | some (some log) => decodeReturnLog log

/-- Asset-id resolution for a mint transaction (lines 141–159): the inner
`acfg` scan first; only if it left `asa_id` as `None` (note: a decoded `0`
is NOT `None`) is the ABI return log consulted. -/
def resolveAsaId (txn : RawTxn) : Option Nat :=
  match extractInnerAsaId txn.innerTxns with
  | some n => some n
  | none => extractLogAsaId txn.logs

/-- The price/seat decoding of `_handle_mint` (lines 169–181).  Both fields
start from their defaults (`0`, `"UNKNOWN"`) and are assigned inside one
`try` block: a failure at any point keeps whatever was assigned before it
and is only logged.  Price: `int.from_bytes(b64decode(args[1]), "big")`;
seat: `b64decode(args[2])[2:].decode("utf-8")` (2-byte ARC-4 length prefix
stripped, then UTF-8 decoded). -/
def decodeMintArgs (appArgs : List Blob) : Nat × List Nat :=
  match appArgs.get? 1 with
  | none => (0, UNKNOWN_BYTES)
  | some none => (0, UNKNOWN_BYTES)
  | some (some priceBytes) =>
      let price := beBytesToNat priceBytes
      match appArgs.get? 2 with
      | none => (price, UNKNOWN_BYTES)
      | some none => (price, UNKNOWN_BYTES)
      | some (some seatBytes) =>
          if validUtf8 (seatBytes.drop 2) then (price, seatBytes.drop 2)
          else (price, UNKNOWN_BYTES)

/-- Outcome of `_handle_mint`, made explicit for the reconciliation claims:
`applied` (row inserted), `skippedDuplicate` (a ticket with this asset id
already exists), `droppedUnresolvable` (no asset id could be extracted). -/
inductive MintOutcome where
  | applied
  | skippedDuplicate
  | droppedUnresolvable
  deriving Repr, DecidableEq

/-- `_handle_mint` (lines 139–205): resolve the asset id (warn and return
if impossible), decode price and seat, then inside one session check
whether a ticket with this `asa_id` exists (skip if so) and otherwise
insert a new row with `event_id=1`, `status=MINTED`,
`current_owner_wallet=txn.sender`, `txn_id=txn_id`. -/
def handleMint (store : Store) (txn : RawTxn) : Store × MintOutcome :=
  match resolveAsaId txn with
  | none => (store, .droppedUnresolvable)
  | some asaId =>
      let priceSeat := decodeMintArgs txn.appArgs
      if (store.tickets.find? (fun t => t.asa_id == asaId)).isSome then
        (store, .skippedDuplicate)
      else
        let t : Ticket :=
          { id := store.nextTicketId
            event_id := 1
            seat_number := priceSeat.2
            asa_id := asaId
            ticket_price := priceSeat.1
            status := .minted
            current_owner_wallet := txn.sender
            txn_id := txn.txnId }
        ({ tickets := store.tickets ++ [t]
           transfers := store.transfers
           nextTicketId := store.nextTicketId + 1 }, .applied)

/-- The asset-id extraction of `_handle_transfer` (lines 213–219):
`int.from_bytes(b64decode(args[1]), "big")` when there is a second
argument, with any failure leaving `asa_id` as `None`. -/
def decodeTransferAsaId (appArgs : List Blob) : Option Nat :=
  match appArgs.get? 1 with
  | none => none
  | some none => none
  | some (some assetBytes) => some (beBytesToNat assetBytes)

/-- Outcome of `_handle_transfer`: `applied`, `droppedNoAsaId` (asset id
not extractable), `skippedTicketNotFound` (no ticket row for the asset). -/
inductive TransferOutcome where
  | applied
  | droppedNoAsaId
  | skippedTicketNotFound
  deriving Repr, DecidableEq

/-- `_handle_transfer` (lines 207–260): extract the asset id (warn and
return if impossible), look up the ticket by `asa_id` (warn and return if
absent), then in one session append a `Transfer` row
`{from: ticket.current_owner_wallet, to: sender, price: 0 (placeholder),
txn_id, type: RESALE, status: CONFIRMED}` and update the ticket's owner
and status to `TRANSFERRED`. -/
def handleTransfer (store : Store) (txn : RawTxn) : Store × TransferOutcome :=
  match decodeTransferAsaId txn.appArgs with
  | none => (store, .droppedNoAsaId)
  | some asaId =>
      match store.tickets.find? (fun t => t.asa_id == asaId) with
      | none => (store, .skippedTicketNotFound)
      | some ticket =>
          let tr : Transfer :=
            { ticket_id := ticket.id
              from_wallet := ticket.current_owner_wallet
              to_wallet := txn.sender
              price := 0
              txn_id := txn.txnId
              transfer_type := .resale
              status := .confirmed }
          ({ tickets := store.tickets.map (fun t =>
                if t.id == ticket.id then
                  { t with current_owner_wallet := txn.sender,
                           status := .transferred }
                else t)
             transfers := store.transfers ++ [tr]
             nextTicketId := store.nextTicketId }, .applied)

/-- Classification result of `_process_transaction`. -/
inductive TxnClass where
  | mint
  | transfer
  | ignored
  deriving Repr, DecidableEq

/-- The classification logic of `_process_transaction` (lines 112–137):
require `tx-type == "appl"`, at least one application argument, a first
argument whose base64 decoding succeeds, and its hex equal to one of the
two selectors; everything else falls through (is ignored).  The
application id of the transaction is never consulted here. -/
def classify (txn : RawTxn) : TxnClass :=
  if txn.txType ≠ "appl" then .ignored
  else
    match txn.appArgs.head? with
    | none => .ignored
    | some none => .ignored
    | some (some sel) =>
        if sel = MINT_SELECTOR then .mint
        else if sel = TRANSFER_SELECTOR then .transfer
        else .ignored

/-- `_process_transaction` as a store transformer: dispatch on the
classification to `_handle_mint` / `_handle_transfer`, else no effect. -/
def processTransaction (store : Store) (txn : RawTxn) : Store :=
  match classify txn with
  | .mint => (handleMint store txn).1
  | .transfer => (handleTransfer store txn).1
  | .ignored => store

/-- The cursor update of `_poll` (lines 101–110).  Each batch element is a
pair `(ok, round)`: `round` is the transaction's `confirmed-round`, and
`ok` abstracts whether `await self._process_transaction(txn)` completes
normally (`true`) or raises — e.g. a database error (`false`).  After each
COMPLETED transaction `_last_round` is raised to its round if larger; an
exception propagates out of the `for` loop to the `except` on line 109, so
the remaining transactions are not processed and `_last_round` keeps the
value accumulated so far. -/
def pollCursor : Nat → List (Bool × Nat) → Nat
  | cursor, [] => cursor
  | cursor, (ok, round) :: rest =>
      if ok then
        pollCursor (if round > cursor then round else cursor) rest
      else cursor

/-! ## Sample data used by witnesses and counterexamples -/

/-- The empty database state. -/
def emptyStore : Store := { tickets := [], transfers := [], nextTicketId := 1 }

/-- 555 as an 8-byte big-endian sequence. -/
def bytes555 : List Nat := [0, 0, 0, 0, 0, 0, 2, 43]

/-- A ticket row for asset 555 owned by `"OWNER"`. -/
def sampleTicket : Ticket :=
  { id := 1, event_id := 1, seat_number := [86, 73, 80, 45, 49], asa_id := 555,
    ticket_price := 100, status := .minted, current_owner_wallet := "OWNER",
    txn_id := "MINTTX" }

/-- A store holding exactly `sampleTicket`. -/
def storeWithTicket : Store :=
  { tickets := [sampleTicket], transfers := [], nextTicketId := 2 }

/-- A transfer app call for asset 555 from sender `"BUYER"`. -/
def transferTxn555 : RawTxn :=
  { txType := "appl", txnId := "TX1", sender := "BUYER", confirmedRound := 12,
    appId := 1, appArgs := [some TRANSFER_SELECTOR, some bytes555],
    logs := [], innerTxns := [] }

/-- A mint app call carrying price 100 and seat `"VIP-1"`, whose inner
`acfg` transaction created asset 555, parameterized by the sender. -/
def mintTxnWithSender (s : String) : RawTxn :=
  { txType := "appl", txnId := "MINTTX", sender := s, confirmedRound := 10,
    appId := 1,
    appArgs := [some MINT_SELECTOR, some [0, 0, 0, 0, 0, 0, 0, 100],
                some ([0, 5] ++ [86, 73, 80, 45, 49])],
    logs := [],
    innerTxns := [{ txType := "acfg", createdAssetIndex := some 555,
                    acfgAssetId := none }] }

/-- A minimal mint-selector app call targeting application `appId`. -/
def apclTxn (appId : Nat) : RawTxn :=
  { txType := "appl", txnId := "T", sender := "S", confirmedRound := 0,
    appId := appId, appArgs := [some MINT_SELECTOR], logs := [],
    innerTxns := [] }

/-! ## Helper lemmas -/

theorem ite_gt_eq_max (c round : Nat) :
    (if round > c then round else c) = max c round := by
  rcases le_or_lt round c with h | h
  · rw [if_neg (by omega), Nat.max_eq_left h]
  · rw [if_pos h, Nat.max_eq_right h.le]

/-- Reduction of `handleMint` when no asset id can be resolved. -/
theorem handleMint_unresolved (store : Store) (txn : RawTxn)
    (h : resolveAsaId txn = none) :
    handleMint store txn = (store, .droppedUnresolvable) := by
  unfold handleMint
  rw [h]

/-- Reduction of `handleMint` when a ticket with the asset id exists. -/
theorem handleMint_skip (store : Store) (txn : RawTxn) (asaId : Nat)
    (t0 : Ticket)
    (h : resolveAsaId txn = some asaId)
    (hf : store.tickets.find? (fun t => t.asa_id == asaId) = some t0) :
    handleMint store txn = (store, .skippedDuplicate) := by
  unfold handleMint
  rw [h]
  simp [hf]

/-- Reduction of `handleMint` when the asset id resolves and no ticket with
it exists: the decoded row is appended. -/
theorem handleMint_insert (store : Store) (txn : RawTxn) (asaId : Nat)
    (h : resolveAsaId txn = some asaId)
    (hf : store.tickets.find? (fun t => t.asa_id == asaId) = none) :
    handleMint store txn =
      ({ tickets := store.tickets ++
          [{ id := store.nextTicketId, event_id := 1,
             seat_number := (decodeMintArgs txn.appArgs).2, asa_id := asaId,
             ticket_price := (decodeMintArgs txn.appArgs).1, status := .minted,
             current_owner_wallet := txn.sender, txn_id := txn.txnId }],
         transfers := store.transfers,
         nextTicketId := store.nextTicketId + 1 }, .applied) := by
  unfold handleMint
  rw [h]
  simp [hf]

/-- Reduction of `handleTransfer` when the asset id decodes and the ticket
lookup succeeds: a transfer row is appended and the owner updated. -/
theorem handleTransfer_apply (store : Store) (txn : RawTxn) (asaId : Nat)
    (ticket : Ticket)
    (ha : decodeTransferAsaId txn.appArgs = some asaId)
    (hf : store.tickets.find? (fun t => t.asa_id == asaId) = some ticket) :
    handleTransfer store txn =
      ({ tickets := store.tickets.map (fun t =>
            if t.id == ticket.id then
              { t with current_owner_wallet := txn.sender,
                       status := .transferred }
            else t)
         transfers := store.transfers ++
          [{ ticket_id := ticket.id,
             from_wallet := ticket.current_owner_wallet,
             to_wallet := txn.sender, price := 0, txn_id := txn.txnId,
             transfer_type := .resale, status := .confirmed }]
         nextTicketId := store.nextTicketId }, .applied) := by
  unfold handleTransfer
  rw [ha]
  simp [hf]

/-! ## C1: cursor advancement -/

/-- C1 counterexample: the claim says that if processing any transaction in
the batch fails, the cursor remains at its pre-batch value.  In the code,
`_last_round` is updated after EACH transaction inside the `for` loop, so a
batch whose second transaction raises leaves the cursor at the first
transaction's round (10), not at the pre-batch value (0). -/
theorem pollCursor_partial_advance_cex :
    pollCursor 0 [(true, 10), (false, 11), (true, 12)] = 10 ∧ (10 : Nat) ≠ 0 := by
  decide

/-- C1 (amended): the cursor is advanced incrementally, once per processed
transaction: after a poll over `batch`, `_last_round` equals the running
maximum of its prior value and the confirmed rounds of the longest prefix
of the batch processed without failure.  In particular, when every
transaction processes, it reaches the batch's maximum confirmed round, but
a mid-batch failure leaves it partially advanced. -/
theorem pollCursor_eq_prefix_max (c : Nat) (batch : List (Bool × Nat)) :
    pollCursor c batch =
      (batch.takeWhile (fun p => p.1)).foldl (fun cur p => max cur p.2) c := by
  induction batch generalizing c with
  | nil => rfl
  | cons hd tl ih =>
    obtain ⟨ok, round⟩ := hd
    cases ok with
    | false => simp [pollCursor, List.takeWhile_cons]
    | true =>
      simp only [pollCursor, List.takeWhile_cons, ih, ite_gt_eq_max]
      simp [List.foldl_cons]

/-! ## C9: return-log decoding -/

/-- C9 counterexample: the claim says `decode_return_log` fails whenever
the log is shorter than 12 bytes.  The code slices `last_log[4:12]` without
a length check, so a 4-byte log equal to the marker decodes to `some 0`. -/
theorem decodeReturnLog_short_log_cex :
    RETURN_MARKER.length < 12 ∧ decodeReturnLog RETURN_MARKER = some 0 := by
  decide

/-- C9 (amended): decoding a return-value log succeeds iff the log's first
four bytes are exactly the ARC-4 marker (which forces length ≥ 4 but not
≥ 12), and the value is the big-endian integer of bytes 4..12 — fewer when
the log is shorter, down to 0 bytes, which decode to 0. -/
theorem decodeReturnLog_characterization (log : List Nat) (v : Nat) :
    decodeReturnLog log = some v ↔
      4 ≤ log.length ∧ log.take 4 = RETURN_MARKER ∧
      v = beBytesToNat ((log.drop 4).take 8) := by
  unfold decodeReturnLog
  split
  case isTrue h =>
    constructor
    · intro heq
      refine ⟨?_, h, (Option.some.inj heq).symm⟩
      have hl := congrArg List.length h
      simp only [List.length_take] at hl
      have : RETURN_MARKER.length = 4 := by decide
      omega
    · rintro ⟨-, -, rfl⟩
      rfl
  case isFalse h =>
    constructor
    · intro heq
      exact absurd heq (by simp)
    · rintro ⟨-, hm, -⟩
      exact absurd hm h

/-! ## C7: classification -/

/-- C7 counterexample: the claim says a transaction classifies as Mint only
if it targets the configured application id.  `_process_transaction` never
reads the application id: two transactions that differ only in their
application id both classify as Mint, so classification cannot require
matching any single configured id. -/
theorem classify_ignores_app_id_cex :
    classify (apclTxn 1) = .mint ∧ classify (apclTxn 2) = .mint ∧
      (apclTxn 1).appId ≠ (apclTxn 2).appId := by
  decide

/-- C7 (amended): classification is total (always Mint, Transfer or
Ignored) and yields Mint (resp. Transfer) iff the type tag is `"appl"` and
the first application argument exists, base64-decodes, and equals the mint
(resp. transfer) selector.  The application id is not consulted — that
filtering happens in the indexer query, not in the classifier. -/
theorem classify_characterization (txn : RawTxn) :
    (classify txn = .mint ↔
      txn.txType = "appl" ∧ txn.appArgs.head? = some (some MINT_SELECTOR)) ∧
    (classify txn = .transfer ↔
      txn.txType = "appl" ∧ txn.appArgs.head? = some (some TRANSFER_SELECTOR)) ∧
    (classify txn = .mint ∨ classify txn = .transfer ∨ classify txn = .ignored) := by
  unfold classify
  by_cases ht : txn.txType = "appl"
  · simp only [ht, ne_eq, not_true_eq_false, if_false]
    rcases hh : txn.appArgs.head? with - | b
    · simp
    · rcases b with - | sel
      · simp
      · by_cases hm : sel = MINT_SELECTOR
        · subst hm
          simp [MINT_SELECTOR, TRANSFER_SELECTOR]
        · by_cases htr : sel = TRANSFER_SELECTOR
          · subst htr
            simp [MINT_SELECTOR, TRANSFER_SELECTOR]
          · simp [hm, htr]
  · simp [ht]

/-! ## C3: mint idempotence on asset id -/

/-- C3: mint reconciliation is idempotent on asset id.  If the store has no
ticket for `asaId` and a mint resolving to `asaId` is applied, the row is
inserted (exactly one row for `asaId`), and a second mint observation
resolving to the same asset id — the same chain event seen twice, or the
API-driven mint — is `Skipped` and leaves the store unchanged. -/
theorem handleMint_idempotent (store : Store) (txn txn2 : RawTxn) (asaId : Nat)
    (h1 : resolveAsaId txn = some asaId)
    (h2 : resolveAsaId txn2 = some asaId)
    (h0 : store.tickets.find? (fun t => t.asa_id == asaId) = none) :
    (handleMint store txn).2 = .applied ∧
    ((handleMint store txn).1.tickets.countP (fun t => t.asa_id == asaId)) = 1 ∧
    handleMint (handleMint store txn).1 txn2 =
      ((handleMint store txn).1, .skippedDuplicate) := by
  have hzero : store.tickets.countP (fun t => t.asa_id == asaId) = 0 := by
    rw [List.countP_eq_zero]
    intro a ha
    exact List.find?_eq_none.mp h0 a ha
  have happ := handleMint_insert store txn asaId h1 h0
  set newT : Ticket :=
    { id := store.nextTicketId, event_id := 1,
      seat_number := (decodeMintArgs txn.appArgs).2, asa_id := asaId,
      ticket_price := (decodeMintArgs txn.appArgs).1, status := .minted,
      current_owner_wallet := txn.sender, txn_id := txn.txnId } with hnewT
  have hfind : (store.tickets ++ [newT]).find? (fun t => t.asa_id == asaId) =
      some newT := by
    rw [List.find?_append, h0]
    simp [hnewT]
  refine ⟨by rw [happ], ?_, ?_⟩
  · rw [happ]
    simp [hzero, hnewT]
  · rw [happ]
    exact handleMint_skip _ txn2 asaId newT h2 hfind

/-- C3 witness: minting asset 555 into the empty store and re-observing the
same mint leaves a single row and a `skippedDuplicate` outcome. -/
theorem handleMint_idempotent_witness :
    handleMint (handleMint emptyStore (mintTxnWithSender "ALICE")).1
        (mintTxnWithSender "ALICE") =
      ((handleMint emptyStore (mintTxnWithSender "ALICE")).1,
        .skippedDuplicate) :=
  (handleMint_idempotent emptyStore (mintTxnWithSender "ALICE")
    (mintTxnWithSender "ALICE") 555 (by decide) (by decide) rfl).2.2

/-! ## C5: asset-id resolution order and drop policy -/

/-- C5: asset-id resolution for a mint first consults the inner `acfg`
transaction scan; only when that yields nothing is the ABI return log
consulted; and when neither yields a value the mint is dropped — the store
is returned unchanged with no ticket row written (never a default id). -/
theorem resolveAsaId_order_and_drop (txn : RawTxn) (store : Store) :
    (∀ n, extractInnerAsaId txn.innerTxns = some n → resolveAsaId txn = some n) ∧
    (extractInnerAsaId txn.innerTxns = none →
      resolveAsaId txn = extractLogAsaId txn.logs) ∧
    (resolveAsaId txn = none →
      handleMint store txn = (store, .droppedUnresolvable)) := by
  refine ⟨?_, ?_, ?_⟩
  · intro n h
    unfold resolveAsaId
    rw [h]
  · intro h
    unfold resolveAsaId
    rw [h]
  · intro h
    unfold handleMint
    rw [h]

/-! ## C6: transfer with no matching ticket -/

/-- C6: a transfer event whose asset id has no matching ticket row is
skipped and the store is returned entirely unchanged — no transfer row is
appended and no ticket is modified. -/
theorem handleTransfer_ticket_not_found (store : Store) (txn : RawTxn)
    (asaId : Nat)
    (ha : decodeTransferAsaId txn.appArgs = some asaId)
    (hf : store.tickets.find? (fun t => t.asa_id == asaId) = none) :
    handleTransfer store txn = (store, .skippedTicketNotFound) := by
  unfold handleTransfer
  rw [ha]
  simp [hf]

/-- C6 witness: the transfer call for asset 555 against the empty store is
skipped with the store unchanged. -/
theorem handleTransfer_ticket_not_found_witness :
    handleTransfer emptyStore transferTxn555 =
      (emptyStore, .skippedTicketNotFound) :=
  handleTransfer_ticket_not_found emptyStore transferTxn555 555 (by decide) rfl

/-! ## C10: synced tickets always carry event_id = 1 -/

/-- C10: every ticket row inserted by mint reconciliation has its
`event_id` set to the constant 1, regardless of the transaction's
contents (source line 195: `event_id=1,  # Default event`). -/
theorem handleMint_event_id_one (store : Store) (txn : RawTxn)
    (h : (handleMint store txn).2 = .applied) :
    ((handleMint store txn).1.tickets.getLast?.map (fun t => t.event_id)) =
      some 1 := by
  rcases hres : resolveAsaId txn with - | asaId
  · rw [handleMint_unresolved store txn hres] at h
    exact absurd h (by simp)
  · rcases hfind : store.tickets.find? (fun t => t.asa_id == asaId) with - | t0
    · rw [handleMint_insert store txn asaId hres hfind]
      rw [List.getLast?_concat]
      rfl
    · rw [handleMint_skip store txn asaId t0 hres hfind] at h
      exact absurd h (by simp)

/-- C10 witness: the ticket row synced from a concrete mint has
`event_id = 1`. -/
theorem handleMint_event_id_one_witness :
    ((handleMint emptyStore (mintTxnWithSender "ALICE")).1.tickets.getLast?.map
      (fun t => t.event_id)) = some 1 :=
  handleMint_event_id_one emptyStore (mintTxnWithSender "ALICE") (by decide)

/-! ## C2: transfer reconciliation and transaction-id idempotence -/

/-- Ticket lookup by asset id is unaffected by the ownership update: the
update changes only the owner and status fields, never `asa_id`. -/
theorem find?_asa_map_update (l : List Ticket) (asaId tid : Nat)
    (buyer : String) :
    (l.map (fun t => if t.id == tid then
        { t with current_owner_wallet := buyer,
                 status := TicketStatus.transferred } else t)).find?
      (fun t => t.asa_id == asaId) =
    (l.find? (fun t => t.asa_id == asaId)).map (fun t => if t.id == tid then
        { t with current_owner_wallet := buyer,
                 status := TicketStatus.transferred } else t) := by
  rw [List.find?_map]
  have hcomp : ((fun t : Ticket => t.asa_id == asaId) ∘
      (fun t => if t.id == tid then
        { t with current_owner_wallet := buyer,
                 status := TicketStatus.transferred } else t)) =
      (fun t : Ticket => t.asa_id == asaId) := by
    funext t
    by_cases h : t.id = tid <;> simp [Function.comp, h]
  rw [hcomp]

/-- C2 counterexample: the claim says re-processing the identical transfer
transaction yields exactly one `Transfer` row for that transaction id.  The
code has no guard on the transaction id: processing `transferTxn555` twice
against a store holding the ticket appends TWO transfer rows with
transaction id `"TX1"`. -/
theorem handleTransfer_double_apply_cex :
    ((handleTransfer (handleTransfer storeWithTicket transferTxn555).1
        transferTxn555).1.transfers.countP
      (fun tr => tr.txn_id == "TX1")) = 2 := by
  decide

/-- C2 (amended): transfer reconciliation has NO transaction-id idempotence
guard: whenever the ticket is found, re-processing the identical transfer
transaction applies again and appends a second `Transfer` row with the same
transaction id (two new rows in total).  The ticket's owner does reflect
only the final buyer, since both applications write the same buyer. -/
theorem handleTransfer_no_txn_id_guard (store : Store) (txn : RawTxn)
    (asaId : Nat) (ticket : Ticket)
    (ha : decodeTransferAsaId txn.appArgs = some asaId)
    (hf : store.tickets.find? (fun t => t.asa_id == asaId) = some ticket) :
    (handleTransfer store txn).2 = .applied ∧
    (handleTransfer (handleTransfer store txn).1 txn).2 = .applied ∧
    ((handleTransfer (handleTransfer store txn).1 txn).1.transfers.countP
        (fun tr => tr.txn_id == txn.txnId)) =
      store.transfers.countP (fun tr => tr.txn_id == txn.txnId) + 2 ∧
    (((handleTransfer (handleTransfer store txn).1 txn).1.tickets.find?
        (fun t => t.asa_id == asaId)).map (fun t => t.current_owner_wallet)) =
      some txn.sender := by
  have h1app := handleTransfer_apply store txn asaId ticket ha hf
  have hfind2 : ((handleTransfer store txn).1.tickets.find?
      (fun t => t.asa_id == asaId)) =
      some (if ticket.id == ticket.id then
        { ticket with current_owner_wallet := txn.sender,
                      status := TicketStatus.transferred } else ticket) := by
    rw [h1app]
    rw [find?_asa_map_update, hf]
    rfl
  have hfind2' : ((handleTransfer store txn).1.tickets.find?
      (fun t => t.asa_id == asaId)) =
      some { ticket with current_owner_wallet := txn.sender,
                         status := TicketStatus.transferred } := by
    rw [hfind2]
    simp
  have h2app := handleTransfer_apply (handleTransfer store txn).1 txn asaId
    { ticket with current_owner_wallet := txn.sender,
                  status := TicketStatus.transferred } ha hfind2'
  refine ⟨by rw [h1app], by rw [h2app], ?_, ?_⟩
  · rw [h2app]
    rw [h1app]
    simp
  · rw [h2app]
    rw [find?_asa_map_update, hfind2']
    by_cases h : ticket.id = ticket.id <;> simp [h]

/-- C2 witness: the double application against `storeWithTicket` yields two
transfer rows carrying the transaction's id. -/
theorem handleTransfer_no_txn_id_guard_witness :
    ((handleTransfer (handleTransfer storeWithTicket transferTxn555).1
        transferTxn555).1.transfers.countP
      (fun tr => tr.txn_id == transferTxn555.txnId)) =
      storeWithTicket.transfers.countP
        (fun tr => tr.txn_id == transferTxn555.txnId) + 2 :=
  (handleTransfer_no_txn_id_guard storeWithTicket transferTxn555 555
    sampleTicket (by decide) (by decide)).2.2.1

/-! ## C4: fields of the inserted mint row -/

/-- C4 counterexample: the claim says the inserted row's owner is the
contract's own custody address, a value independent of the transaction.
The code writes `current_owner_wallet=sender`: two mints identical except
for their sender produce rows with the two different senders as owners, so
the owner cannot equal any one fixed custody address. -/
theorem handleMint_owner_is_sender_cex :
    ((handleMint emptyStore (mintTxnWithSender "AAAA")).1.tickets.map
      (fun t => t.current_owner_wallet)) = ["AAAA"] ∧
    ((handleMint emptyStore (mintTxnWithSender "BBBB")).1.tickets.map
      (fun t => t.current_owner_wallet)) = ["BBBB"] ∧
    ("AAAA" : String) ≠ "BBBB" := by
  decide

/-- C4 (amended): for a mint event whose asset id resolves and is not yet
present, reconciliation appends exactly one row with `status = minted`,
owner = the mint transaction's SENDER address (not a custody address),
price and seat from the decoded arguments, and the transaction id. -/
theorem handleMint_inserted_row_fields (store : Store) (txn : RawTxn)
    (asaId : Nat)
    (h1 : resolveAsaId txn = some asaId)
    (h0 : store.tickets.find? (fun t => t.asa_id == asaId) = none) :
    ∃ t : Ticket,
      (handleMint store txn).1.tickets = store.tickets ++ [t] ∧
      (handleMint store txn).2 = .applied ∧
      t.status = .minted ∧
      t.current_owner_wallet = txn.sender ∧
      t.asa_id = asaId ∧
      t.ticket_price = (decodeMintArgs txn.appArgs).1 ∧
      t.seat_number = (decodeMintArgs txn.appArgs).2 ∧
      t.txn_id = txn.txnId := by
  rw [handleMint_insert store txn asaId h1 h0]
  exact ⟨_, rfl, rfl, rfl, rfl, rfl, rfl, rfl, rfl⟩

/-- C4 witness: the row synced from a concrete mint by `"ALICE"` carries
the decoded fields with `"ALICE"` as owner. -/
theorem handleMint_inserted_row_fields_witness :
    ∃ t : Ticket,
      (handleMint emptyStore (mintTxnWithSender "ALICE")).1.tickets =
        emptyStore.tickets ++ [t] ∧
      (handleMint emptyStore (mintTxnWithSender "ALICE")).2 = .applied ∧
      t.status = .minted ∧
      t.current_owner_wallet = (mintTxnWithSender "ALICE").sender ∧
      t.asa_id = 555 ∧
      t.ticket_price = (decodeMintArgs (mintTxnWithSender "ALICE").appArgs).1 ∧
      t.seat_number = (decodeMintArgs (mintTxnWithSender "ALICE").appArgs).2 ∧
      t.txn_id = (mintTxnWithSender "ALICE").txnId :=
  handleMint_inserted_row_fields emptyStore (mintTxnWithSender "ALICE") 555
    (by decide) rfl

/-! ## C8: decode failures on mint arguments -/

/-- A mint call whose price argument fails base64 decoding, with the asset
id resolvable from the inner `acfg` transaction. -/
def mintTxnBadPrice : RawTxn :=
  { txType := "appl", txnId := "TXBAD", sender := "SENDER",
    confirmedRound := 10, appId := 1,
    appArgs := [some MINT_SELECTOR, none], logs := [],
    innerTxns := [{ txType := "acfg", createdAssetIndex := some 777,
                    acfgAssetId := none }] }

/-- C8 counterexample: the claim says a mint whose price argument fails to
decode is skipped with no row written.  The code only logs the failure and
falls back to the defaults, still inserting a row with price 0 and seat
`"UNKNOWN"`. -/
theorem handleMint_decode_failure_inserts_cex :
    (handleMint emptyStore mintTxnBadPrice).2 = .applied ∧
    (handleMint emptyStore mintTxnBadPrice).1.tickets.length = 1 ∧
    ((handleMint emptyStore mintTxnBadPrice).1.tickets.map
      (fun t => t.ticket_price)) = [0] ∧
    ((handleMint emptyStore mintTxnBadPrice).1.tickets.map
      (fun t => t.seat_number)) = [UNKNOWN_BYTES] := by
  decide

/-- C8 (amended): a failure to decode a mint's price or seat-number
argument is non-fatal and only logged, but the transaction is NOT skipped:
a Ticket row is still inserted.  Because both fields are assigned inside
one `try` block (lines 171–180), the failing point decides the row's
contents: a price decode failure aborts before the seat is attempted, so
the row carries price 0 and seat `"UNKNOWN"`; a seat decode failure (bad
base64 or invalid UTF-8) after a successful price decode keeps the decoded
price and falls back only for the seat. -/
theorem handleMint_decode_failure_defaults (store : Store) (txn : RawTxn)
    (asaId : Nat)
    (h1 : resolveAsaId txn = some asaId)
    (h0 : store.tickets.find? (fun t => t.asa_id == asaId) = none) :
    (txn.appArgs[1]? = some none →
      (handleMint store txn).2 = .applied ∧
      ∃ t, (handleMint store txn).1.tickets = store.tickets ++ [t] ∧
        t.ticket_price = 0 ∧ t.seat_number = UNKNOWN_BYTES) ∧
    (∀ priceBytes seatBlob,
      txn.appArgs[1]? = some (some priceBytes) →
      txn.appArgs[2]? = some seatBlob →
      (seatBlob = none ∨
        ∃ bs, seatBlob = some bs ∧ validUtf8 (bs.drop 2) = false) →
      (handleMint store txn).2 = .applied ∧
      ∃ t, (handleMint store txn).1.tickets = store.tickets ++ [t] ∧
        t.ticket_price = beBytesToNat priceBytes ∧
        t.seat_number = UNKNOWN_BYTES) := by
  have hins := handleMint_insert store txn asaId h1 h0
  constructor
  · intro hbad
    have hargs : decodeMintArgs txn.appArgs = (0, UNKNOWN_BYTES) := by
      simp [decodeMintArgs, hbad]
    rw [hins, hargs]
    exact ⟨rfl, _, rfl, rfl, rfl⟩
  · intro priceBytes seatBlob hp hs hfail
    have hargs : decodeMintArgs txn.appArgs =
        (beBytesToNat priceBytes, UNKNOWN_BYTES) := by
      rcases hfail with rfl | ⟨bs, rfl, hbs⟩
      · simp [decodeMintArgs, hp, hs]
      · simp [decodeMintArgs, hp, hs, hbs]
    rw [hins, hargs]
    exact ⟨rfl, _, rfl, rfl, rfl⟩

/-- C8 witness: the concrete mint with an undecodable price argument still
inserts a row with the fallback fields. -/
theorem handleMint_decode_failure_defaults_witness :
    (handleMint emptyStore mintTxnBadPrice).2 = .applied ∧
    ∃ t, (handleMint emptyStore mintTxnBadPrice).1.tickets =
        emptyStore.tickets ++ [t] ∧
      t.ticket_price = 0 ∧ t.seat_number = UNKNOWN_BYTES :=
  (handleMint_decode_failure_defaults emptyStore mintTxnBadPrice 777
    (by decide) rfl).1 rfl
